import Mathlib

/-!
Verification of the natural-language specification of `@ghii/yaml-loader`
against its two source variants:

* V1: `src/yaml-loader.ts` — the factory checks existence synchronously at
  construction time (and may log/throw there); the returned loader has no
  existence check of its own.
* V2: `src/unnamed/part_000` (current implementation) — the factory only
  joins the path; the returned loader checks existence at invocation time
  and, when the path is missing and `throwOnError` is false, falls through
  into the `try` block anyway.

The embedding is an effect-trace semantics: every filesystem access and
every call to the configured `logger` is recorded as an event, and the
loader body is a pure function of the filesystem snapshots observed at its
three access points (`existsSync`, `stat`, `readFile`), so racy deletions
between accesses are expressible by passing different snapshots.  The YAML
parser (`js-yaml`, an external collaborator per the spec) is a parameter.
-/

namespace Ghii

/-- A filesystem entry: a regular file with string content, a directory, or
any other non-regular entry (socket, fifo, ...). -/
inductive FsEntry where
  | file (content : String)
  | dir
  | other
deriving DecidableEq, Repr

/-- Result of `fstat.isFile()` on the metadata of an entry. -/
def FsEntry.statIsFile : FsEntry → Bool
  | .file _ => true
  | .dir => false
  | .other => false

/-- A filesystem snapshot: an association list from path strings to entries. -/
abbrev FS := List (String × FsEntry)

/-- Lookup of a path in a snapshot. -/
def lookupFS : FS → String → Option FsEntry
  | [], _ => none
  | (q, e) :: rest, p => if p = q then some e else lookupFS rest p

/-- A JavaScript throwable, as far as the loaders observe it: an `Error`
instance carrying a message, or any non-`Error` value. -/
inductive JsErr where
  | mkError (msg : String)
  | nonError
deriving DecidableEq, Repr

/-- Evaluation of `err instanceof Error ? err.message : ''` — the message
extraction used when composing the generic-failure message. -/
def JsErr.messageOrEmpty : JsErr → String
  | .mkError m => m
  | .nonError => ""

/-- A JavaScript value as produced by the YAML parser: `undefined` (empty
document), `null`, booleans, strings, sequences and mappings.  The empty
mapping `{}` returned on suppressed errors is `Jsv.map []`. -/
inductive Jsv where
  | undef
  | null
  | bool (b : Bool)
  | str (s : String)
  | arr (xs : List Jsv)
  | map (kvs : List (String × Jsv))

/-- The first argument the loaders pass to `logger`: the literal object
`{ msg: 'not exist' }`, the literal object `{ msg }` of the V2
not-a-file branch, or a caught throwable forwarded unchanged. -/
inductive LoggedVal where
  | notExistMarker
  | msgObj (msg : String)
  | caught (e : JsErr)
deriving DecidableEq, Repr

/-- An observable effect of a factory call or a loader invocation: a
filesystem read access (`existsSync`, `stat`, `readFile`), a filesystem
write (never emitted by this code, present so that its absence is a
statement), or a call to the configured `logger`. -/
inductive Eff where
  | fsExists (p : String)
  | fsStat (p : String)
  | fsRead (p : String)
  | fsWrite (p : String)
  | logCall (v : LoggedVal) (msg : String)
deriving DecidableEq, Repr

/-- Is this effect a filesystem write? -/
def Eff.isWrite : Eff → Bool
  | .fsWrite _ => true
  | _ => false

/-- The logger calls of an effect list, in order. -/
def logCalls (effs : List Eff) : List (LoggedVal × String) :=
  effs.filterMap fun e =>
    match e with
    | .logCall v m => some (v, m)
    | _ => none

/-- Model of Node `fs.existsSync`. -/
def existsSyncM (fs : FS) (p : String) : Bool :=
  (lookupFS fs p).isSome

/-- Model of Node `fs.stat` (promise form): resolves with the entry
metadata, rejects with an `ENOENT` `Error` when the path is missing. -/
def statM (fs : FS) (p : String) : Except JsErr FsEntry :=
  match lookupFS fs p with
  | none => .error (.mkError ("ENOENT: no such file or directory, stat " ++ p))
  | some e => .ok e

/-- Model of Node `fs.readFile` (promise form, utf8): resolves with the
content of a regular file, rejects with an `Error` otherwise. -/
def readFileM (fs : FS) (p : String) : Except JsErr String :=
  match lookupFS fs p with
  | none => .error (.mkError ("ENOENT: no such file or directory, open " ++ p))
  | some (.file c) => .ok c
  | some .dir => .error (.mkError "EISDIR: illegal operation on a directory, read")
  | some .other => .error (.mkError "EINVAL: invalid argument, read")

/-- The YAML parser (`yaml.load` / `yaml.safeLoad`): text to a value, or a
throwable on malformed input.  External collaborator, taken as a
parameter. -/
abbrev YamlParse := String → Except JsErr Jsv

/-! ### Model of Node `path.join` (posix rule)

`path.posix.join` concatenates the non-empty segments with `/` and
normalizes the result (collapsing redundant separators and resolving `.`
and `..`); with no non-empty segment it returns `"."`. -/

/-- Splitting a character list on `/` (the components of a posix path). -/
def splitSlashAux : List Char → List Char → List String
  | acc, [] => [String.mk acc.reverse]
  | acc, c :: rest =>
    if c = '/' then String.mk acc.reverse :: splitSlashAux [] rest
    else splitSlashAux (c :: acc) rest

/-- The `/`-separated components of a path string. -/
def splitSlash (s : String) : List String := splitSlashAux [] s.toList

/-- Does the path string start with `/` (an absolute posix path)? -/
def strStartsSlash (s : String) : Bool :=
  match s.toList with
  | c :: _ => c = '/'
  | [] => false

/-- Does the path string end with `/`? -/
def strEndsSlash (s : String) : Bool :=
  match s.toList.getLast? with
  | some c => c = '/'
  | none => false

/-- Joining components with `/` separators. -/
def joinComps : List String → String
  | [] => ""
  | [c] => c
  | c :: rest => c ++ "/" ++ joinComps rest

/-- Normalization of path components: drops empty components and `"."`,
resolves `".."` against the accumulated stack (kept reversed). -/
def normComps (isAbs : Bool) : List String → List String → List String
  | acc, [] => acc.reverse
  | acc, c :: rest =>
    if c = "" ∨ c = "." then normComps isAbs acc rest
    else if c = ".." then
      match acc with
      | [] => if isAbs then normComps isAbs [] rest else normComps isAbs [".."] rest
      | top :: tl =>
        if top = ".." then normComps isAbs (c :: top :: tl) rest
        else normComps isAbs tl rest
    else normComps isAbs (c :: acc) rest

/-- Model of Node `path.posix.normalize`: collapse redundant separators,
resolve `.` and `..`, preserve a trailing separator, with `"."` for an
empty result. -/
def normalizePath (p : String) : String :=
  if p = "" then "." else
  let isAbs := strStartsSlash p
  let trailing := strEndsSlash p
  let comps := normComps isAbs [] (splitSlash p)
  let core := joinComps comps
  let core2 := if isAbs then "/" ++ core else if core = "" then "." else core
  if trailing && !(strEndsSlash core2) then core2 ++ "/" else core2

/-- Model of Node `path.posix.join` applied to the variadic
`filePathToken` segments: the non-empty segments joined with `/` and
normalized; `"."` when nothing remains. -/
def pathJoin (segs : List String) : String :=
  let nonEmpty := segs.filter (fun s => s ≠ "")
  if nonEmpty.isEmpty then "." else normalizePath (joinComps nonEmpty)

/-! ### Messages -/

/-- The not-found message `` `${sourcePath} 404` ``. -/
def notFoundMsg (p : String) : String := p ++ " 404"

/-- The not-a-file message `` `Source ${sourcePath} is not a file` ``. -/
def notAFileMsg (p : String) : String := "Source " ++ p ++ " is not a file"

/-- The generic-failure message
`` `FILE DELETED OR A DIRECTORY-> ${sourcePath} 404: ${err instanceof Error ? err.message : ''}` ``. -/
def composedMsg (p : String) (e : JsErr) : String :=
  "FILE DELETED OR A DIRECTORY-> " ++ p ++ " 404: " ++ e.messageOrEmpty

/-! ### The loader bodies

An invocation result is `Except String Jsv` (the loaders reject only with
fresh `new Error(msg)` values, so a rejection is exactly a message)
paired with the effect trace. -/

/-- The `catch (err)` block, identical in both variants: compose the
message, log the original throwable with it, then throw a new `Error` or
resolve with `{}` according to `throwOnError`. -/
def genericCatch (throwOnError : Bool) (p : String) (e : JsErr) (pre : List Eff) :
    Except String Jsv × List Eff :=
  let msg := composedMsg p e
  let effs := pre ++ [.logCall (.caught e) msg]
  if throwOnError then (.error msg, effs) else (.ok (.map []), effs)

/-- The shared read-and-parse tail of the `try` block, entered once the
metadata says regular file: read the content, parse it, resolve with the
parse result; any rejection goes to the `catch` block. -/
def readAndParse (throwOnError : Bool) (p : String) (parse : YamlParse)
    (fs3 : FS) (pre : List Eff) : Except String Jsv × List Eff :=
  match readFileM fs3 p with
  | .error e => genericCatch throwOnError p e (pre ++ [.fsRead p])
  | .ok content =>
    let pre2 := pre ++ [.fsRead p]
    match parse content with
    | .error e => genericCatch throwOnError p e pre2
    | .ok v => (.ok v, pre2)

/-- The `try` block of the V2 loader (`part_000` lines 28–52): stat the
path; on a regular file read and parse; otherwise log
`Source <p> is not a file` and, under `throwOnError`, throw that message
inside the `try` — so the loader's own `catch` intercepts it. -/
def tryBodyV2 (throwOnError : Bool) (p : String) (parse : YamlParse)
    (fs2 fs3 : FS) (pre : List Eff) : Except String Jsv × List Eff :=
  match statM fs2 p with
  | .error e => genericCatch throwOnError p e (pre ++ [.fsStat p])
  | .ok ent =>
    let pre2 := pre ++ [.fsStat p]
    if ent.statIsFile then readAndParse throwOnError p parse fs3 pre2
    else
      let msg := notAFileMsg p
      let pre3 := pre2 ++ [.logCall (.msgObj msg) msg]
      if throwOnError then genericCatch throwOnError p (.mkError msg) pre3
      else (.ok (.map []), pre3)

/-- The V2 loader `yamlFileLoader` (`part_000` lines 18–53): check
existence; when missing, log `<p> 404` and, under `throwOnError`, throw it
(outside the `try`, so it escapes); otherwise fall through into the `try`
block.  `fs1`, `fs2`, `fs3` are the snapshots observed by `existsSync`,
`stat` and `readFile` respectively. -/
def yamlFileLoaderV2 (throwOnError : Bool) (p : String) (parse : YamlParse)
    (fs1 fs2 fs3 : FS) : Except String Jsv × List Eff :=
  let pre : List Eff := [.fsExists p]
  if existsSyncM fs1 p then tryBodyV2 throwOnError p parse fs2 fs3 pre
  else
    let pre2 := pre ++ [.logCall .notExistMarker (notFoundMsg p)]
    if throwOnError then (.error (notFoundMsg p), pre2)
    else tryBodyV2 throwOnError p parse fs2 fs3 pre2

/-- The `try` block of the V1 loader (`src/yaml-loader.ts` lines 23–35):
like V2, except that the not-a-file branch throws directly without a
preceding logger call, so the only log for a directory is the composed
one from the `catch`. -/
def tryBodyV1 (throwOnError : Bool) (p : String) (parse : YamlParse)
    (fs2 fs3 : FS) (pre : List Eff) : Except String Jsv × List Eff :=
  match statM fs2 p with
  | .error e => genericCatch throwOnError p e (pre ++ [.fsStat p])
  | .ok ent =>
    let pre2 := pre ++ [.fsStat p]
    if ent.statIsFile then readAndParse throwOnError p parse fs3 pre2
    else genericCatch throwOnError p (.mkError (notAFileMsg p)) pre2

/-- The V1 loader `yamlFileLoader` (`src/yaml-loader.ts` lines 22–36): no
existence check at invocation time. -/
def yamlFileLoaderV1 (throwOnError : Bool) (p : String) (parse : YamlParse)
    (fs2 fs3 : FS) : Except String Jsv × List Eff :=
  tryBodyV1 throwOnError p parse fs2 fs3 []

/-! ### The factories -/

/-- The state captured by the returned closure: the `throwOnError` policy
and the `sourcePath` joined once at construction. -/
structure ConstructedLoader where
  throwOnError : Bool
  sourcePath : String
deriving DecidableEq, Repr

/-- The V2 factory `yamlLoader` (`part_000` lines 7–54): joins the
segments and returns the closure; no filesystem access, no failure. -/
def yamlLoaderV2 (throwOnError : Bool) (segs : List String) : ConstructedLoader :=
  { throwOnError := throwOnError, sourcePath := pathJoin segs }

/-- The V2 factory run against a filesystem snapshot, in the same
result-and-trace shape as V1, so the two construction behaviours are
comparable: it ignores the snapshot, succeeds, and emits no effect. -/
def yamlLoaderV2Run (throwOnError : Bool) (segs : List String) (fs : FS) :
    Except String ConstructedLoader × List Eff :=
  let _ := fs
  (.ok (yamlLoaderV2 throwOnError segs), [])

/-- The V1 factory `yamlLoader` (`src/yaml-loader.ts` lines 10–37): joins
the segments, then synchronously checks existence; when missing it logs
`<p> 404` and, under `throwOnError`, throws it out of the factory itself;
otherwise it returns the closure. -/
def yamlLoaderV1Run (throwOnError : Bool) (segs : List String) (fs : FS) :
    Except String ConstructedLoader × List Eff :=
  let p := pathJoin segs
  let pre : List Eff := [.fsExists p]
  if existsSyncM fs p then (.ok ⟨throwOnError, p⟩, pre)
  else
    let pre2 := pre ++ [.logCall .notExistMarker (notFoundMsg p)]
    if throwOnError then (.error (notFoundMsg p), pre2)
    else (.ok ⟨throwOnError, p⟩, pre2)

/-- Invoking a constructed V2 loader: the closure applies the stored
policy and the stored, never recomputed `sourcePath`. -/
def ConstructedLoader.invokeV2 (l : ConstructedLoader) (parse : YamlParse)
    (fs1 fs2 fs3 : FS) : Except String Jsv × List Eff :=
  yamlFileLoaderV2 l.throwOnError l.sourcePath parse fs1 fs2 fs3

/-- Invoking a constructed V1 loader. -/
def ConstructedLoader.invokeV1 (l : ConstructedLoader) (parse : YamlParse)
    (fs2 fs3 : FS) : Except String Jsv × List Eff :=
  yamlFileLoaderV1 l.throwOnError l.sourcePath parse fs2 fs3

/-- The filesystem snapshots observed by one V2 invocation. -/
structure World where
  fs1 : FS
  fs2 : FS
  fs3 : FS

/-- A sequence of invocations of one constructed V2 loader, each against
the snapshots current at its own access points. -/
def runSeqV2 (l : ConstructedLoader) (parse : YamlParse) (ws : List World) :
    List (Except String Jsv × List Eff) :=
  ws.map fun w => l.invokeV2 parse w.fs1 w.fs2 w.fs3

/-! ### Predicates used by the statements -/

/-- The string `m` contains `sub` as a substring. -/
def containsSub (m sub : String) : Prop := ∃ a b, m = a ++ sub ++ b

/-- No effect in the list is a filesystem write. -/
def noWrites (effs : List Eff) : Bool := effs.all fun e => !e.isWrite

/-! ### Concrete fixtures (mirroring the repository's test data) -/

/-- The YAML text of the test fixture `test.yaml`. -/
def yamlFixText : String := "foo:\n  ciao: mondo\n"

/-- The parsed document of the fixture, `{ foo: { ciao: "mondo" } }`. -/
def docFix : Jsv := .map [("foo", .map [("ciao", .str "mondo")])]

/-- A concrete parser behaving as `js-yaml` does on the fixture text. -/
def parseFix : YamlParse := fun s =>
  if s = yamlFixText then .ok docFix else .error (.mkError "bad yaml")

/-- A parser stub whose every parse throws a non-`Error` value; used for
invocations that reach parsing only to fail, or never reach it. -/
def parseNone : YamlParse := fun _ => .error .nonError

/-- A parser mapping the empty document to `undefined`, as `yaml.load`
does. -/
def parseEmpty : YamlParse := fun s =>
  if s = "" then .ok .undef else .error .nonError

/-- A snapshot holding the fixture file and a directory. -/
def fsFix : FS := [("/a/test.yaml", .file yamlFixText), ("/d", .dir)]

/-- A snapshot holding only a directory. -/
def fsDir : FS := [("/d", .dir)]

/-- A snapshot holding an empty file. -/
def fsEmptyFile : FS := [("/a/empty.yaml", .file "")]

/-- A snapshot holding the joined fixture path. -/
def fsJoinFix : FS := [("/a/b/config.yaml", .file "x")]


lemma v2_file_ok (t : Bool) (p : String) (parse : YamlParse) (fs : FS) (c : String) (v : Jsv)
    (hf : lookupFS fs p = some (.file c)) (hp : parse c = .ok v) :
    yamlFileLoaderV2 t p parse fs fs fs = (.ok v, [.fsExists p, .fsStat p, .fsRead p]) := by
  simp [yamlFileLoaderV2, existsSyncM, hf, tryBodyV2, statM, FsEntry.statIsFile, readAndParse,
    readFileM, hp]

lemma v1_file_ok (t : Bool) (p : String) (parse : YamlParse) (fs : FS) (c : String) (v : Jsv)
    (hf : lookupFS fs p = some (.file c)) (hp : parse c = .ok v) :
    yamlFileLoaderV1 t p parse fs fs = (.ok v, [.fsStat p, .fsRead p]) := by
  simp [yamlFileLoaderV1, tryBodyV1, statM, hf, FsEntry.statIsFile, readAndParse, readFileM, hp]

lemma v2_missing_throw (p : String) (parse : YamlParse) (fs : FS)
    (h : lookupFS fs p = none) :
    yamlFileLoaderV2 true p parse fs fs fs =
      (.error (notFoundMsg p), [.fsExists p, .logCall .notExistMarker (notFoundMsg p)]) := by
  simp [yamlFileLoaderV2, existsSyncM, h]

lemma statEnoent (p : String) (fs : FS) (h : lookupFS fs p = none) :
    statM fs p = .error (.mkError ("ENOENT: no such file or directory, stat " ++ p)) := by
  simp [statM, h]

lemma v2_missing_noThrow (p : String) (parse : YamlParse) (fs : FS)
    (h : lookupFS fs p = none) :
    yamlFileLoaderV2 false p parse fs fs fs =
      (.ok (.map []),
       [.fsExists p, .logCall .notExistMarker (notFoundMsg p), .fsStat p,
        .logCall (.caught (.mkError ("ENOENT: no such file or directory, stat " ++ p)))
          (composedMsg p (.mkError ("ENOENT: no such file or directory, stat " ++ p)))]) := by
  simp [yamlFileLoaderV2, existsSyncM, h, tryBodyV2, statM, genericCatch]

lemma v2_dir_noThrow (p : String) (parse : YamlParse) (fs : FS) (ent : FsEntry)
    (he : lookupFS fs p = some ent) (hnf : ent.statIsFile = false) :
    yamlFileLoaderV2 false p parse fs fs fs =
      (.ok (.map []),
       [.fsExists p, .fsStat p, .logCall (.msgObj (notAFileMsg p)) (notAFileMsg p)]) := by
  simp [yamlFileLoaderV2, existsSyncM, he, tryBodyV2, statM, hnf]

lemma v2_dir_throw (p : String) (parse : YamlParse) (fs : FS) (ent : FsEntry)
    (he : lookupFS fs p = some ent) (hnf : ent.statIsFile = false) :
    yamlFileLoaderV2 true p parse fs fs fs =
      (.error (composedMsg p (.mkError (notAFileMsg p))),
       [.fsExists p, .fsStat p, .logCall (.msgObj (notAFileMsg p)) (notAFileMsg p),
        .logCall (.caught (.mkError (notAFileMsg p))) (composedMsg p (.mkError (notAFileMsg p)))]) := by
  simp [yamlFileLoaderV2, existsSyncM, he, tryBodyV2, statM, hnf, genericCatch]

lemma v1_dir (t : Bool) (p : String) (parse : YamlParse) (fs : FS) (ent : FsEntry)
    (he : lookupFS fs p = some ent) (hnf : ent.statIsFile = false) :
    yamlFileLoaderV1 t p parse fs fs =
      ((if t then .error (composedMsg p (.mkError (notAFileMsg p))) else .ok (.map [])),
       [.fsStat p,
        .logCall (.caught (.mkError (notAFileMsg p))) (composedMsg p (.mkError (notAFileMsg p)))]) := by
  cases t <;>
  simp [yamlFileLoaderV1, tryBodyV1, statM, he, hnf, genericCatch]

lemma v1_missing (t : Bool) (p : String) (parse : YamlParse) (fs : FS)
    (h : lookupFS fs p = none) :
    yamlFileLoaderV1 t p parse fs fs =
      ((if t then .error (composedMsg p (.mkError ("ENOENT: no such file or directory, stat " ++ p)))
        else .ok (.map [])),
       [.fsStat p,
        .logCall (.caught (.mkError ("ENOENT: no such file or directory, stat " ++ p)))
          (composedMsg p (.mkError ("ENOENT: no such file or directory, stat " ++ p)))]) := by
  cases t <;>
  simp [yamlFileLoaderV1, tryBodyV1, statM, h, genericCatch]

lemma v2_parse_err (t : Bool) (p : String) (parse : YamlParse) (fs : FS) (c : String) (e : JsErr)
    (hf : lookupFS fs p = some (.file c)) (hp : parse c = .error e) :
    yamlFileLoaderV2 t p parse fs fs fs =
      ((if t then .error (composedMsg p e) else .ok (.map [])),
       [.fsExists p, .fsStat p, .fsRead p, .logCall (.caught e) (composedMsg p e)]) := by
  cases t <;>
  simp [yamlFileLoaderV2, existsSyncM, hf, tryBodyV2, statM, FsEntry.statIsFile, readAndParse,
    readFileM, hp, genericCatch]

lemma v1_parse_err (t : Bool) (p : String) (parse : YamlParse) (fs : FS) (c : String) (e : JsErr)
    (hf : lookupFS fs p = some (.file c)) (hp : parse c = .error e) :
    yamlFileLoaderV1 t p parse fs fs =
      ((if t then .error (composedMsg p e) else .ok (.map [])),
       [.fsStat p, .fsRead p, .logCall (.caught e) (composedMsg p e)]) := by
  cases t <;>
  simp [yamlFileLoaderV1, tryBodyV1, statM, hf, FsEntry.statIsFile, readAndParse, readFileM, hp,
    genericCatch]

lemma v2_stat_err (t : Bool) (p : String) (parse : YamlParse) (fs1 fs2 fs3 : FS) (e : JsErr)
    (hex : existsSyncM fs1 p = true) (hs : statM fs2 p = .error e) :
    yamlFileLoaderV2 t p parse fs1 fs2 fs3 =
      ((if t then .error (composedMsg p e) else .ok (.map [])),
       [.fsExists p, .fsStat p, .logCall (.caught e) (composedMsg p e)]) := by
  cases t <;>
  simp [yamlFileLoaderV2, hex, tryBodyV2, hs, genericCatch]

lemma v2_read_err (t : Bool) (p : String) (parse : YamlParse) (fs1 fs2 fs3 : FS)
    (ent : FsEntry) (e : JsErr)
    (hex : existsSyncM fs1 p = true) (hs : statM fs2 p = .ok ent) (hif : ent.statIsFile = true)
    (hr : readFileM fs3 p = .error e) :
    yamlFileLoaderV2 t p parse fs1 fs2 fs3 =
      ((if t then .error (composedMsg p e) else .ok (.map [])),
       [.fsExists p, .fsStat p, .fsRead p, .logCall (.caught e) (composedMsg p e)]) := by
  cases t <;>
  simp [yamlFileLoaderV2, hex, tryBodyV2, hs, hif, readAndParse, hr, genericCatch]

lemma v1_stat_err (t : Bool) (p : String) (parse : YamlParse) (fs2 fs3 : FS) (e : JsErr)
    (hs : statM fs2 p = .error e) :
    yamlFileLoaderV1 t p parse fs2 fs3 =
      ((if t then .error (composedMsg p e) else .ok (.map [])),
       [.fsStat p, .logCall (.caught e) (composedMsg p e)]) := by
  cases t <;> simp [yamlFileLoaderV1, tryBodyV1, hs, genericCatch]

lemma v1_read_err (t : Bool) (p : String) (parse : YamlParse) (fs2 fs3 : FS)
    (ent : FsEntry) (e : JsErr)
    (hs : statM fs2 p = .ok ent) (hif : ent.statIsFile = true)
    (hr : readFileM fs3 p = .error e) :
    yamlFileLoaderV1 t p parse fs2 fs3 =
      ((if t then .error (composedMsg p e) else .ok (.map [])),
       [.fsStat p, .fsRead p, .logCall (.caught e) (composedMsg p e)]) := by
  cases t <;> simp [yamlFileLoaderV1, tryBodyV1, hs, hif, readAndParse, hr, genericCatch]

lemma containsSub_notFound (p : String) : containsSub (notFoundMsg p) p :=
  ⟨"", " 404", by simp [notFoundMsg]⟩

lemma containsSub_notAFile (p : String) : containsSub (notAFileMsg p) p :=
  ⟨"Source ", " is not a file", rfl⟩

lemma containsSub_composed (p : String) (e : JsErr) : containsSub (composedMsg p e) p :=
  ⟨"FILE DELETED OR A DIRECTORY-> ", " 404: " ++ e.messageOrEmpty, by
    show composedMsg p e = "FILE DELETED OR A DIRECTORY-> " ++ p ++ (" 404: " ++ e.messageOrEmpty)
    simp [composedMsg, String.append_assoc]⟩

lemma append_colon_split (m : String) :
    (" 404: " : String) ++ m = " 404" ++ (": " ++ m) := by
  have h : (" 404: " : String) = " 404" ++ ": " := by decide
  rw [h, String.append_assoc]

lemma containsSub_composed_notFound (p : String) (e : JsErr) :
    containsSub (composedMsg p e) (notFoundMsg p) := by
  refine ⟨"FILE DELETED OR A DIRECTORY-> ", ": " ++ e.messageOrEmpty, ?_⟩
  show "FILE DELETED OR A DIRECTORY-> " ++ p ++ " 404: " ++ e.messageOrEmpty =
    "FILE DELETED OR A DIRECTORY-> " ++ (p ++ " 404") ++ (": " ++ e.messageOrEmpty)
  rw [String.append_assoc, String.append_assoc, append_colon_split,
    String.append_assoc, String.append_assoc]

lemma containsSub_composed_notAFile (p : String) :
    containsSub (composedMsg p (.mkError (notAFileMsg p))) (notAFileMsg p) := by
  refine ⟨"FILE DELETED OR A DIRECTORY-> " ++ p ++ " 404: ", "", ?_⟩
  simp [composedMsg, JsErr.messageOrEmpty, String.append_assoc]



lemma noWrites_snoc (pre : List Eff) (x : Eff) (hx : x.isWrite = false)
    (h : noWrites pre = true) : noWrites (pre ++ [x]) = true := by
  simp [noWrites, List.all_append, hx] at h ⊢
  exact h

lemma genericCatch_noWrites (t : Bool) (p : String) (e : JsErr) (pre : List Eff)
    (h : noWrites pre = true) : noWrites (genericCatch t p e pre).2 = true := by
  unfold genericCatch
  split <;> exact noWrites_snoc pre _ rfl h

lemma readAndParse_noWrites (t : Bool) (p : String) (parse : YamlParse) (fs3 : FS)
    (pre : List Eff) (h : noWrites pre = true) :
    noWrites (readAndParse t p parse fs3 pre).2 = true := by
  unfold readAndParse
  split
  · exact genericCatch_noWrites t p _ _ (noWrites_snoc pre (.fsRead p) rfl h)
  · split
    · exact genericCatch_noWrites t p _ _ (noWrites_snoc pre (.fsRead p) rfl h)
    · exact noWrites_snoc pre (.fsRead p) rfl h

lemma tryBodyV2_noWrites (t : Bool) (p : String) (parse : YamlParse) (fs2 fs3 : FS)
    (pre : List Eff) (h : noWrites pre = true) :
    noWrites (tryBodyV2 t p parse fs2 fs3 pre).2 = true := by
  unfold tryBodyV2
  split
  · exact genericCatch_noWrites t p _ _ (noWrites_snoc pre _ rfl h)
  · split
    · exact readAndParse_noWrites t p parse fs3 _ (noWrites_snoc pre _ rfl h)
    · split
      · exact genericCatch_noWrites t p _ _
          (noWrites_snoc _ (.logCall (.msgObj (notAFileMsg p)) (notAFileMsg p)) rfl
            (noWrites_snoc pre (.fsStat p) rfl h))
      · exact noWrites_snoc _ (.logCall (.msgObj (notAFileMsg p)) (notAFileMsg p)) rfl
          (noWrites_snoc pre (.fsStat p) rfl h)

lemma tryBodyV1_noWrites (t : Bool) (p : String) (parse : YamlParse) (fs2 fs3 : FS)
    (pre : List Eff) (h : noWrites pre = true) :
    noWrites (tryBodyV1 t p parse fs2 fs3 pre).2 = true := by
  unfold tryBodyV1
  split
  · exact genericCatch_noWrites t p _ _ (noWrites_snoc pre _ rfl h)
  · split
    · exact readAndParse_noWrites t p parse fs3 _ (noWrites_snoc pre _ rfl h)
    · exact genericCatch_noWrites t p _ _ (noWrites_snoc pre _ rfl h)

lemma yamlFileLoaderV2_noWrites (t : Bool) (p : String) (parse : YamlParse)
    (fs1 fs2 fs3 : FS) : noWrites (yamlFileLoaderV2 t p parse fs1 fs2 fs3).2 = true := by
  unfold yamlFileLoaderV2
  split
  · exact tryBodyV2_noWrites t p parse fs2 fs3 _ rfl
  · split
    · rfl
    · exact tryBodyV2_noWrites t p parse fs2 fs3 _ rfl

lemma yamlFileLoaderV1_noWrites (t : Bool) (p : String) (parse : YamlParse)
    (fs2 fs3 : FS) : noWrites (yamlFileLoaderV1 t p parse fs2 fs3).2 = true :=
  tryBodyV1_noWrites t p parse fs2 fs3 [] rfl

lemma yamlLoaderV1Run_noWrites (t : Bool) (segs : List String) (fs : FS) :
    noWrites (yamlLoaderV1Run t segs fs).2 = true := by
  cases hex : existsSyncM fs (pathJoin segs) <;> cases t <;>
    simp [yamlLoaderV1Run, hex, noWrites, Eff.isWrite]

/-! ## Claims -/


/-- Claim C1: for every loader over a path that, at invocation time,
designates an existing regular file whose content is well-formed YAML with
a mapping root, invoking the loader resolves with exactly the parsed
document, under both throwOnError settings, in both source variants. -/
theorem c1_well_formed_file_resolves_parsed (throwOnError : Bool) (p : String)
    (parse : YamlParse) (fs : FS) (c : String) (kvs : List (String × Jsv))
    (hfile : lookupFS fs p = some (.file c))
    (hparse : parse c = .ok (.map kvs)) :
    (yamlFileLoaderV2 throwOnError p parse fs fs fs).1 = .ok (.map kvs) ∧
    (yamlFileLoaderV1 throwOnError p parse fs fs).1 = .ok (.map kvs) := by
  rw [v2_file_ok throwOnError p parse fs c (.map kvs) hfile hparse,
    v1_file_ok throwOnError p parse fs c (.map kvs) hfile hparse]
  exact ⟨rfl, rfl⟩

/-- Witness for C1 at the repository's own test fixture
`{ foo: { ciao: "mondo" } }`. -/
theorem c1_witness :
    lookupFS fsFix "/a/test.yaml" = some (.file yamlFixText) ∧
    parseFix yamlFixText = .ok (.map [("foo", .map [("ciao", .str "mondo")])]) ∧
    (yamlFileLoaderV2 true "/a/test.yaml" parseFix fsFix fsFix fsFix).1 =
      .ok (.map [("foo", .map [("ciao", .str "mondo")])]) ∧
    (yamlFileLoaderV1 true "/a/test.yaml" parseFix fsFix fsFix).1 =
      .ok (.map [("foo", .map [("ciao", .str "mondo")])]) := by
  have h := c1_well_formed_file_resolves_parsed true "/a/test.yaml" parseFix fsFix
    yamlFixText [("foo", .map [("ciao", .str "mondo")])] rfl rfl
  exact ⟨rfl, rfl, h.1, h.2⟩

/-- Claim C2, counterexample: the V1 factory called over a missing path
with throwOnError=true throws `<path> 404` out of the factory itself, and
its construction-time behaviour observably depends on the filesystem — so
the claim that calling the factory never throws and performs no filesystem
access is false for the `src/yaml-loader.ts` variant. -/
theorem c2_counterexample :
    (yamlLoaderV1Run true ["missing.yaml"] []).1 = .error (notFoundMsg "missing.yaml") ∧
    (yamlLoaderV1Run true ["missing.yaml"] []).2 ≠ [] ∧
    (yamlLoaderV1Run true ["missing.yaml"] []).2 ≠
      (yamlLoaderV1Run true ["missing.yaml"] [("missing.yaml", .file "x")]).2 :=
  ⟨rfl, by decide, by decide⟩

/-- Claim C2 as amended: the V2 factory (`part_000`) performs no
filesystem access and never throws — its outcome is filesystem-independent,
always a constructed loader, with an empty effect trace; the V1 factory
(`src/yaml-loader.ts`) checks existence at construction and, when the
joined path is missing and throwOnError is true, logs `<path> 404` and
throws it. -/
theorem c2_factory_construction (throwOnError : Bool) (segs : List String) (fs fsB : FS) :
    yamlLoaderV2Run throwOnError segs fs = (.ok (yamlLoaderV2 throwOnError segs), []) ∧
    yamlLoaderV2Run throwOnError segs fs = yamlLoaderV2Run throwOnError segs fsB ∧
    (lookupFS fs (pathJoin segs) = none →
      yamlLoaderV1Run true segs fs =
        (.error (notFoundMsg (pathJoin segs)),
         [.fsExists (pathJoin segs), .logCall .notExistMarker (notFoundMsg (pathJoin segs))])) := by
  refine ⟨rfl, rfl, fun h => ?_⟩
  simp [yamlLoaderV1Run, existsSyncM, h]

/-- Witness for C2 at a concrete missing path. -/
theorem c2_witness :
    lookupFS ([] : FS) (pathJoin ["missing.yaml"]) = none ∧
    yamlLoaderV2Run true ["missing.yaml"] [] = (.ok (yamlLoaderV2 true ["missing.yaml"]), []) ∧
    yamlLoaderV1Run true ["missing.yaml"] [] =
      (.error (notFoundMsg (pathJoin ["missing.yaml"])),
       [.fsExists (pathJoin ["missing.yaml"]),
        .logCall .notExistMarker (notFoundMsg (pathJoin ["missing.yaml"]))]) :=
  ⟨rfl, (c2_factory_construction true ["missing.yaml"] [] []).1,
   (c2_factory_construction true ["missing.yaml"] [] []).2.2 rfl⟩

/-- Claim C3, counterexample: a V1 loader invoked while its path is
missing fails with the composed generic message, which is not the message
`<SourcePath> 404` the claim requires. -/
theorem c3_counterexample :
    (yamlFileLoaderV1 true "cfg.yaml" parseNone [] []).1 =
      .error (composedMsg "cfg.yaml"
        (.mkError ("ENOENT: no such file or directory, stat cfg.yaml"))) ∧
    composedMsg "cfg.yaml" (.mkError ("ENOENT: no such file or directory, stat cfg.yaml")) ≠
      notFoundMsg "cfg.yaml" :=
  ⟨rfl, by decide⟩

/-- Claim C3 as amended: for a missing path, the V2 loader with
throwOnError=true fails with exactly `<SourcePath> 404`; with
throwOnError=false it logs, does not short-circuit (the subsequent stat
failure is logged too) and resolves with `{}`; the V1 loader fails
(throwOnError=true) with the composed generic message — which contains
`<SourcePath> 404` as a substring — and resolves with `{}` under
throwOnError=false. -/
theorem c3_missing_path (p : String) (parse : YamlParse) (fs : FS)
    (hmiss : lookupFS fs p = none) :
    (yamlFileLoaderV2 true p parse fs fs fs).1 = .error (notFoundMsg p) ∧
    ((yamlFileLoaderV2 false p parse fs fs fs).1 = .ok (.map []) ∧
      logCalls (yamlFileLoaderV2 false p parse fs fs fs).2 =
        [(.notExistMarker, notFoundMsg p),
         (.caught (.mkError ("ENOENT: no such file or directory, stat " ++ p)),
          composedMsg p (.mkError ("ENOENT: no such file or directory, stat " ++ p)))]) ∧
    ((yamlFileLoaderV1 true p parse fs fs).1 =
        .error (composedMsg p (.mkError ("ENOENT: no such file or directory, stat " ++ p))) ∧
      containsSub (composedMsg p (.mkError ("ENOENT: no such file or directory, stat " ++ p)))
        (notFoundMsg p)) ∧
    (yamlFileLoaderV1 false p parse fs fs).1 = .ok (.map []) := by
  refine ⟨?_, ⟨?_, ?_⟩, ⟨?_, containsSub_composed_notFound p _⟩, ?_⟩
  · rw [v2_missing_throw p parse fs hmiss]
  · rw [v2_missing_noThrow p parse fs hmiss]
  · rw [v2_missing_noThrow p parse fs hmiss]
    simp [logCalls]
  · rw [v1_missing true p parse fs hmiss]
    rfl
  · rw [v1_missing false p parse fs hmiss]
    rfl

/-- Witness for C3 at a concrete missing path. -/
theorem c3_witness :
    lookupFS ([] : FS) "cfg.yaml" = none ∧
    (yamlFileLoaderV2 true "cfg.yaml" parseNone [] [] []).1 = .error (notFoundMsg "cfg.yaml") ∧
    (yamlFileLoaderV2 false "cfg.yaml" parseNone [] [] []).1 = .ok (.map []) ∧
    (yamlFileLoaderV1 false "cfg.yaml" parseNone [] []).1 = .ok (.map []) :=
  ⟨rfl, (c3_missing_path "cfg.yaml" parseNone [] rfl).1,
   (c3_missing_path "cfg.yaml" parseNone [] rfl).2.1.1,
   (c3_missing_path "cfg.yaml" parseNone [] rfl).2.2.2⟩

/-- Claim C4, counterexample: the V2 loader invoked on a directory with
throwOnError=true fails with the composed generic message (its own
`throw` is intercepted by its `catch`), not with the message
`Source <SourcePath> is not a file` the claim requires. -/
theorem c4_counterexample :
    (yamlFileLoaderV2 true "/d" parseNone fsDir fsDir fsDir).1 =
      .error (composedMsg "/d" (.mkError (notAFileMsg "/d"))) ∧
    composedMsg "/d" (.mkError (notAFileMsg "/d")) ≠ notAFileMsg "/d" :=
  ⟨rfl, by decide⟩

/-- Claim C4 as amended: on a non-regular-file entry the V2 loader first
logs exactly `Source <SourcePath> is not a file`; with throwOnError=false
it then resolves `{}` with no further steps; with throwOnError=true the
thrown error is caught by the loader's own catch, logged a second time,
and the invocation fails with the composed message (which contains the
original as a substring).  The V1 loader never logs the bare message: its
single log and its throwOnError=true failure carry the composed message
only. -/
theorem c4_directory (throwOnError : Bool) (p : String) (parse : YamlParse) (fs : FS)
    (ent : FsEntry) (hent : lookupFS fs p = some ent) (hnf : ent.statIsFile = false) :
    yamlFileLoaderV2 false p parse fs fs fs =
      (.ok (.map []),
       [.fsExists p, .fsStat p, .logCall (.msgObj (notAFileMsg p)) (notAFileMsg p)]) ∧
    yamlFileLoaderV2 true p parse fs fs fs =
      (.error (composedMsg p (.mkError (notAFileMsg p))),
       [.fsExists p, .fsStat p, .logCall (.msgObj (notAFileMsg p)) (notAFileMsg p),
        .logCall (.caught (.mkError (notAFileMsg p)))
          (composedMsg p (.mkError (notAFileMsg p)))]) ∧
    yamlFileLoaderV1 throwOnError p parse fs fs =
      ((if throwOnError then .error (composedMsg p (.mkError (notAFileMsg p)))
        else .ok (.map [])),
       [.fsStat p,
        .logCall (.caught (.mkError (notAFileMsg p)))
          (composedMsg p (.mkError (notAFileMsg p)))]) ∧
    containsSub (composedMsg p (.mkError (notAFileMsg p))) (notAFileMsg p) :=
  ⟨v2_dir_noThrow p parse fs ent hent hnf, v2_dir_throw p parse fs ent hent hnf,
   v1_dir throwOnError p parse fs ent hent hnf, containsSub_composed_notAFile p⟩

/-- Witness for C4 at a concrete directory. -/
theorem c4_witness :
    lookupFS fsDir "/d" = some FsEntry.dir ∧
    (yamlFileLoaderV2 false "/d" parseNone fsDir fsDir fsDir).1 = .ok (.map []) ∧
    (yamlFileLoaderV1 false "/d" parseNone fsDir fsDir).1 = .ok (.map []) := by
  have h := c4_directory false "/d" parseNone fsDir FsEntry.dir rfl rfl
  exact ⟨rfl, by rw [h.1], by rw [h.2.2.1]; rfl⟩

/-- Claim C5: any error raised by metadata retrieval, the file read or
YAML parsing after the existence check is logged with the original
throwable and the composed message
`FILE DELETED OR A DIRECTORY-> <SourcePath> 404: <message or empty>`;
with throwOnError=true the invocation fails with a fresh error carrying
exactly that composed message (only the original's message text is
preserved, as the final conjunct states), and with throwOnError=false it
resolves with `{}`.  Stated for stat, read and parse failures, in both
variants. -/
theorem c5_generic_failure (throwOnError : Bool) (p : String) (parse : YamlParse)
    (fs1 fs2 fs3 fs : FS) (ent : FsEntry) (c : String) (e : JsErr) :
    (existsSyncM fs1 p = true → statM fs2 p = .error e →
      yamlFileLoaderV2 throwOnError p parse fs1 fs2 fs3 =
        ((if throwOnError then .error (composedMsg p e) else .ok (.map [])),
         [.fsExists p, .fsStat p, .logCall (.caught e) (composedMsg p e)])) ∧
    (existsSyncM fs1 p = true → statM fs2 p = .ok ent → ent.statIsFile = true →
      readFileM fs3 p = .error e →
      yamlFileLoaderV2 throwOnError p parse fs1 fs2 fs3 =
        ((if throwOnError then .error (composedMsg p e) else .ok (.map [])),
         [.fsExists p, .fsStat p, .fsRead p, .logCall (.caught e) (composedMsg p e)])) ∧
    (lookupFS fs p = some (.file c) → parse c = .error e →
      yamlFileLoaderV2 throwOnError p parse fs fs fs =
        ((if throwOnError then .error (composedMsg p e) else .ok (.map [])),
         [.fsExists p, .fsStat p, .fsRead p, .logCall (.caught e) (composedMsg p e)]) ∧
      yamlFileLoaderV1 throwOnError p parse fs fs =
        ((if throwOnError then .error (composedMsg p e) else .ok (.map [])),
         [.fsStat p, .fsRead p, .logCall (.caught e) (composedMsg p e)])) ∧
    (statM fs2 p = .error e →
      yamlFileLoaderV1 throwOnError p parse fs2 fs3 =
        ((if throwOnError then .error (composedMsg p e) else .ok (.map [])),
         [.fsStat p, .logCall (.caught e) (composedMsg p e)])) ∧
    (statM fs2 p = .ok ent → ent.statIsFile = true → readFileM fs3 p = .error e →
      yamlFileLoaderV1 throwOnError p parse fs2 fs3 =
        ((if throwOnError then .error (composedMsg p e) else .ok (.map [])),
         [.fsStat p, .fsRead p, .logCall (.caught e) (composedMsg p e)])) ∧
    composedMsg p e = composedMsg p (.mkError e.messageOrEmpty) := by
  refine ⟨fun hex hs => v2_stat_err throwOnError p parse fs1 fs2 fs3 e hex hs,
    fun hex hs hif hr => v2_read_err throwOnError p parse fs1 fs2 fs3 ent e hex hs hif hr,
    fun hf hp => ⟨v2_parse_err throwOnError p parse fs c e hf hp,
      v1_parse_err throwOnError p parse fs c e hf hp⟩,
    fun hs => v1_stat_err throwOnError p parse fs2 fs3 e hs,
    fun hs hif hr => v1_read_err throwOnError p parse fs2 fs3 ent e hs hif hr,
    ?_⟩
  cases e <;> rfl

/-- Witness for C5 at a concrete parse failure. -/
theorem c5_witness :
    lookupFS fsFix "/a/test.yaml" = some (.file yamlFixText) ∧
    parseNone yamlFixText = .error .nonError ∧
    yamlFileLoaderV2 true "/a/test.yaml" parseNone fsFix fsFix fsFix =
      (.error (composedMsg "/a/test.yaml" .nonError),
       [.fsExists "/a/test.yaml", .fsStat "/a/test.yaml", .fsRead "/a/test.yaml",
        .logCall (.caught .nonError) (composedMsg "/a/test.yaml" .nonError)]) := by
  have h := (c5_generic_failure true "/a/test.yaml" parseNone fsFix fsFix fsFix fsFix
    FsEntry.dir yamlFixText JsErr.nonError).2.2.1 rfl rfl
  exact ⟨rfl, rfl, h.1⟩

/-- Claim C6, counterexample: a V2 invocation on a directory with
throwOnError=true encounters exactly one error condition (the path is a
directory) yet invokes the logger twice, so `exactly once` is false. -/
theorem c6_counterexample :
    (logCalls (yamlFileLoaderV2 true "/d" parseNone fsDir fsDir fsDir).2).length = 2 := by
  decide

/-- Claim C6 as amended: in every single-error-condition scenario the
configured logger is invoked exactly once with a message containing the
resolved SourcePath — except the V2 directory case under
throwOnError=true, where the loader's own re-caught throw produces a
second log call (both messages still contain the SourcePath). -/
theorem c6_logger_calls (p : String) (parse : YamlParse) :
    (∀ fs : FS, lookupFS fs p = none →
      logCalls (yamlFileLoaderV2 true p parse fs fs fs).2 =
        [(.notExistMarker, notFoundMsg p)]) ∧
    (∀ (fs : FS) (ent : FsEntry), lookupFS fs p = some ent → ent.statIsFile = false →
      logCalls (yamlFileLoaderV2 false p parse fs fs fs).2 =
        [(.msgObj (notAFileMsg p), notAFileMsg p)] ∧
      logCalls (yamlFileLoaderV2 true p parse fs fs fs).2 =
        [(.msgObj (notAFileMsg p), notAFileMsg p),
         (.caught (.mkError (notAFileMsg p)), composedMsg p (.mkError (notAFileMsg p)))] ∧
      ∀ t : Bool, logCalls (yamlFileLoaderV1 t p parse fs fs).2 =
        [(.caught (.mkError (notAFileMsg p)), composedMsg p (.mkError (notAFileMsg p)))]) ∧
    (∀ (fs : FS) (c : String) (e : JsErr) (t : Bool), lookupFS fs p = some (.file c) →
      parse c = .error e →
      logCalls (yamlFileLoaderV2 t p parse fs fs fs).2 = [(.caught e, composedMsg p e)] ∧
      logCalls (yamlFileLoaderV1 t p parse fs fs).2 = [(.caught e, composedMsg p e)]) ∧
    (∀ (fs : FS) (t : Bool), lookupFS fs p = none →
      logCalls (yamlFileLoaderV1 t p parse fs fs).2 =
        [(.caught (.mkError ("ENOENT: no such file or directory, stat " ++ p)),
          composedMsg p (.mkError ("ENOENT: no such file or directory, stat " ++ p)))]) ∧
    (containsSub (notFoundMsg p) p ∧ containsSub (notAFileMsg p) p ∧
      ∀ e : JsErr, containsSub (composedMsg p e) p) := by
  refine ⟨fun fs h => ?_, fun fs ent he hnf => ⟨?_, ?_, fun t => ?_⟩,
    fun fs c e t hf hp => ⟨?_, ?_⟩, fun fs t h => ?_,
    containsSub_notFound p, containsSub_notAFile p, fun e => containsSub_composed p e⟩
  · rw [v2_missing_throw p parse fs h]; simp [logCalls]
  · rw [v2_dir_noThrow p parse fs ent he hnf]; simp [logCalls]
  · rw [v2_dir_throw p parse fs ent he hnf]; simp [logCalls]
  · rw [v1_dir t p parse fs ent he hnf]; simp [logCalls]
  · rw [v2_parse_err t p parse fs c e hf hp]; simp [logCalls]
  · rw [v1_parse_err t p parse fs c e hf hp]; simp [logCalls]
  · rw [v1_missing t p parse fs h]; simp [logCalls]

/-- Witness for C6: the single-log scenarios at concrete inputs. -/
theorem c6_witness :
    lookupFS fsDir "/d" = some FsEntry.dir ∧
    logCalls (yamlFileLoaderV2 false "/d" parseNone fsDir fsDir fsDir).2 =
      [(.msgObj (notAFileMsg "/d"), notAFileMsg "/d")] ∧
    logCalls (yamlFileLoaderV1 true "/d" parseNone fsDir fsDir).2 =
      [(.caught (.mkError (notAFileMsg "/d")), composedMsg "/d" (.mkError (notAFileMsg "/d")))] := by
  have h := (c6_logger_calls "/d" parseNone).2.1 fsDir FsEntry.dir rfl rfl
  exact ⟨rfl, h.1, h.2.2 true⟩

/-- Claim C7: SourcePath is the platform path-join of the segments in
order (the fixture `["/a", "b", "config.yaml"]` joins to
`/a/b/config.yaml`), it is computed when the factory is called, and every
later invocation of the returned loader runs against exactly that stored
string — it is never recomputed. -/
theorem c7_source_path_join (throwOnError : Bool) (segs : List String) (parse : YamlParse)
    (fs1 fs2 fs3 fs : FS) (l : ConstructedLoader) :
    (yamlLoaderV2 throwOnError segs).sourcePath = pathJoin segs ∧
    ((yamlLoaderV1Run throwOnError segs fs).1 = .ok l → l.sourcePath = pathJoin segs) ∧
    pathJoin ["/a", "b", "config.yaml"] = "/a/b/config.yaml" ∧
    (yamlLoaderV2 throwOnError segs).invokeV2 parse fs1 fs2 fs3 =
      yamlFileLoaderV2 throwOnError (pathJoin segs) parse fs1 fs2 fs3 := by
  refine ⟨rfl, fun h => ?_, by decide, rfl⟩
  cases hex : existsSyncM fs (pathJoin segs) <;> cases throwOnError <;>
    simp [yamlLoaderV1Run, hex] at h <;> cases h <;> rfl

/-- Witness for C7 at the fixture segments. -/
theorem c7_witness :
    (yamlLoaderV1Run true ["/a", "b", "config.yaml"] fsJoinFix).1 =
      .ok ⟨true, "/a/b/config.yaml"⟩ ∧
    (⟨true, "/a/b/config.yaml"⟩ : ConstructedLoader).sourcePath =
      pathJoin ["/a", "b", "config.yaml"] :=
  ⟨rfl, (c7_source_path_join true ["/a", "b", "config.yaml"] parseNone [] [] [] fsJoinFix
    ⟨true, "/a/b/config.yaml"⟩).2.1 rfl⟩

/-- Claim C8: a loader invocation's outcome is a function of the captured
config and the snapshots current at that invocation alone — a run
sequence decomposes pointwise, independent of prior invocations — and two
consecutive invocations against an unchanged file resolve with equal
parsed documents. -/
theorem c8_stateless_idempotent (l : ConstructedLoader) (parse : YamlParse)
    (ws1 ws2 : List World) (w : World) (fs : FS) (c : String) (v : Jsv) :
    runSeqV2 l parse (ws1 ++ w :: ws2) =
      runSeqV2 l parse ws1 ++ l.invokeV2 parse w.fs1 w.fs2 w.fs3 :: runSeqV2 l parse ws2 ∧
    (lookupFS fs l.sourcePath = some (.file c) → parse c = .ok v →
      (runSeqV2 l parse [⟨fs, fs, fs⟩, ⟨fs, fs, fs⟩]).map Prod.fst = [.ok v, .ok v]) := by
  constructor
  · simp [runSeqV2]
  · intro hf hp
    simp [runSeqV2, ConstructedLoader.invokeV2,
      v2_file_ok l.throwOnError l.sourcePath parse fs c v hf hp]

/-- Witness for C8 at the fixture file, invoked twice. -/
theorem c8_witness :
    lookupFS fsFix (ConstructedLoader.mk false "/a/test.yaml").sourcePath =
      some (.file yamlFixText) ∧
    parseFix yamlFixText = .ok docFix ∧
    (runSeqV2 ⟨false, "/a/test.yaml"⟩ parseFix
        [⟨fsFix, fsFix, fsFix⟩, ⟨fsFix, fsFix, fsFix⟩]).map Prod.fst =
      [.ok docFix, .ok docFix] :=
  ⟨rfl, rfl, (c8_stateless_idempotent ⟨false, "/a/test.yaml"⟩ parseFix [] []
    ⟨fsFix, fsFix, fsFix⟩ fsFix yamlFixText docFix).2 rfl rfl⟩

/-- Claim C9: no invocation and no construction ever writes to the
filesystem — every effect in every trace is a read access or a logger
call, never a write; the only observable side effects besides the
returned outcome are the logger calls recorded in the trace. -/
theorem c9_no_filesystem_writes (throwOnError : Bool) (p : String) (parse : YamlParse)
    (fs1 fs2 fs3 fs : FS) (segs : List String) :
    noWrites (yamlFileLoaderV2 throwOnError p parse fs1 fs2 fs3).2 = true ∧
    noWrites (yamlFileLoaderV1 throwOnError p parse fs2 fs3).2 = true ∧
    noWrites (yamlLoaderV2Run throwOnError segs fs).2 = true ∧
    noWrites (yamlLoaderV1Run throwOnError segs fs).2 = true :=
  ⟨yamlFileLoaderV2_noWrites throwOnError p parse fs1 fs2 fs3,
   yamlFileLoaderV1_noWrites throwOnError p parse fs2 fs3,
   rfl,
   yamlLoaderV1Run_noWrites throwOnError segs fs⟩

/-- Claim C10: on an existing regular file the loaders resolve with the
parser's result unchanged — no validation or normalization — so a
non-mapping root such as the `undefined` produced for an empty file is
returned as is and remains distinguishable from the suppressed-error
result `{}`. -/
theorem c10_success_result_unvalidated (throwOnError : Bool) (p : String)
    (parse : YamlParse) (fs : FS) (c : String) (v : Jsv)
    (hfile : lookupFS fs p = some (.file c)) (hparse : parse c = .ok v) :
    (yamlFileLoaderV2 throwOnError p parse fs fs fs).1 = .ok v ∧
    (yamlFileLoaderV1 throwOnError p parse fs fs).1 = .ok v ∧
    Jsv.undef ≠ Jsv.map [] := by
  refine ⟨?_, ?_, fun hcontr => Jsv.noConfusion hcontr⟩
  · rw [v2_file_ok throwOnError p parse fs c v hfile hparse]
  · rw [v1_file_ok throwOnError p parse fs c v hfile hparse]

/-- Witness for C10 at an empty file parsed to `undefined`. -/
theorem c10_witness :
    lookupFS fsEmptyFile "/a/empty.yaml" = some (.file "") ∧
    parseEmpty "" = .ok .undef ∧
    (yamlFileLoaderV2 false "/a/empty.yaml" parseEmpty fsEmptyFile fsEmptyFile fsEmptyFile).1 =
      .ok .undef :=
  ⟨rfl, rfl, (c10_success_result_unvalidated false "/a/empty.yaml" parseEmpty fsEmptyFile
    "" .undef rfl rfl).1⟩

end Ghii
